import Mathlib

/-!
Verification of the `template_upload` core (`s3_docs.py`): a shallow
embedding of `DocxS3Uploader` and `clear_proxy_environment`.

The opaque external capabilities (the S3 client operations, the filesystem
scan and file reads) are modelled by an `S3Env` record; every method of the
uploader becomes a pure Lean function of that environment which also returns
the list of store/filesystem actions it performed, so that statements such
as "createBucket is called exactly once" or "no directory scan happens"
are expressible.  Exceptions raised by the opaque capabilities are modelled
with `Except`: a Python `except ClientError` / `except Exception` pair
becomes a `match` on the `Except` value, and a function that can let an
exception escape to its caller returns an `Except` at top level.
-/

namespace TemplateUpload

/-- Faults raised by the opaque capabilities: a botocore `ClientError`
carrying an error code, an `IOError` from an unreadable file, or any other
unexpected exception.  All three are Python `Exception` subclasses, so all
are caught by a bare `except Exception` handler. -/
inductive Exn where
  | clientError (code : String)
  | ioError
  | otherError
deriving DecidableEq

/-- Observable store/filesystem actions performed by the uploader, recorded
in order as a trace. -/
inductive Action where
  | listBuckets
  | headBucket
  | createBucket
  | scanDir
  | readFile (path : String)
  | putObject (key : String)
  | presign (key : String)
deriving DecidableEq

/-- The environment of opaque capabilities one `DocxS3Uploader` run sees:
its configuration (`bucket_name`, `endpoint_url`) and the behaviour of each
external operation (result or raised fault).  `scan` is the list of
relative paths of the `.docx` files that `folder.glob` discovers when the
folder is valid (`folderOk`). -/
structure S3Env where
  bucketName : String
  endpointUrl : String
  listBucketsRaw : Except Exn (List String)
  headBucket : Except Exn Unit
  createBucket : Except Exn Unit
  presign : String → Except Exn String
  fileRead : String → Except Exn Unit
  putObject : String → String → Except Exn Unit
  folderOk : Bool
  scan : List String

/-- The fixed content type sent with every `put_object`
(`s3_docs.py` line 115). -/
def docxContentType : String :=
  "application/vnd.openxmlformats-officedocument.wordprocessingml.document"

/-- Embeds `DocxS3Uploader.get_file_url` (lines 59-85): try to generate a
presigned URL; on any exception fall back to the path-style URL
`{endpoint_url}/{bucket_name}/{object_key}`. -/
def get_file_url (env : S3Env) (object_key : String) : String × List Action :=
  match env.presign object_key with
  | .ok u => (u, [.presign object_key])
  | .error _ =>
      (env.endpointUrl ++ "/" ++ env.bucketName ++ "/" ++ object_key,
       [.presign object_key])

/-- Embeds `os.path.basename` as used at line 97 (POSIX separator). -/
def basename (p : String) : String :=
  (p.splitOn "/").getLastD ""

/-- The body of the `try` block of `upload_file` (lines 104-121): read the
file, put the object, resolve the URL; a fault at any step escapes the
body as an `Except.error`. -/
def uploadFileBody (env : S3Env) (file_path object_name : String) :
    Except Exn (Bool × Option String) × List Action :=
  match env.fileRead file_path with
  | .error e => (.error e, [.readFile file_path])
  | .ok _ =>
      match env.putObject object_name docxContentType with
      | .error e => (.error e, [.readFile file_path, .putObject object_name])
      | .ok _ =>
          let r := get_file_url env object_name
          (.ok (true, some r.1),
           [.readFile file_path, .putObject object_name] ++ r.2)

/-- Embeds `DocxS3Uploader.upload_file` (lines 87-127).  The result type is
`Except Exn (Bool × Option String)`: an `Except.error` at top level would
mean an exception escaped `upload_file` to its caller (what
`asyncio.gather` would observe as a raised exception).  The two `except`
clauses (lines 122-127) map a `ClientError` and any other `Exception` to
the returned outcome `(False, None)`. -/
def upload_file (env : S3Env) (file_path : String) (object_name : Option String) :
    Except Exn (Bool × Option String) × List Action :=
  let key := object_name.getD (basename file_path)
  let body := uploadFileBody env file_path key
  match body with
  | (.ok o, t) => (.ok o, t)
  | (.error (Exn.clientError _), t) => (.ok (false, none), t)
  | (.error _, t) => (.ok (false, none), t)

/-- Embeds `DocxS3Uploader.check_bucket_exists` (lines 129-162): `True` if
`head_bucket` succeeds; `False` on a `ClientError` (the 404/403/other
distinction only affects logging) and on any other exception. -/
def check_bucket_exists (env : S3Env) : Bool × List Action :=
  match env.headBucket with
  | .ok _ => (true, [.headBucket])
  | .error (Exn.clientError _) => (false, [.headBucket])
  | .error _ => (false, [.headBucket])

/-- Embeds `DocxS3Uploader.create_bucket_if_not_exists` (lines 164-190):
if `check_bucket_exists` is `True` return `True`; otherwise call
`create_bucket`, returning `True` on success and `False` on any
exception. -/
def create_bucket_if_not_exists (env : S3Env) : Bool × List Action :=
  let c := check_bucket_exists env
  if c.1 then (true, c.2)
  else
    match env.createBucket with
    | .ok _ => (true, c.2 ++ [.createBucket])
    | .error _ => (false, c.2 ++ [.createBucket])

/-- Embeds `DocxS3Uploader.list_buckets` (lines 192-213): the bucket names
on success, the empty list on any exception. -/
def list_buckets (env : S3Env) : List String × List Action :=
  match env.listBucketsRaw with
  | .ok l => (l, [.listBuckets])
  | .error _ => ([], [.listBuckets])

/-- Embeds Python's `str.replace("\\", "/")` (line 257).  With a
one-character pattern and a one-character replacement, `str.replace`
replaces each occurrence of that character, i.e. it maps every backslash
character of the string to a forward slash. -/
def replaceBackslash (s : String) : String :=
  String.mk (s.data.map fun c => if c = '\\' then '/' else c)

/-- Embeds the object-key computation of `upload_folder` (lines 251-257):
`f"{prefix}{relative_path}" if prefix else str(relative_path)` followed by
`.replace("\\", "/")`. -/
def objectNameFor (pre rel : String) : String :=
  replaceBackslash (if pre ≠ "" then pre ++ rel else rel)

/-- The local path string `str(file_path)` of a discovered file: the folder
path joined with the relative path by the POSIX separator. -/
def filePathOf (folder rel : String) : String :=
  folder ++ "/" ++ rel

/-- Embeds the `file_object_names` mapping built at lines 249-260: local
path string to S3 object key, one pair per discovered file. -/
def file_object_names (env : S3Env) (folder_path pre : String) :
    List (String × String) :=
  env.scan.map fun rel => (filePathOf folder_path rel, objectNameFor pre rel)

/-- Embeds the aggregation branch of `upload_folder` (lines 270-277): a task
result that is an exception becomes `(False, None)`, otherwise the task's
own `(success, url)` pair is kept. -/
def gatherEntry (r : Except Exn (Bool × Option String)) : Bool × Option String :=
  match r with
  | .error _ => (false, none)
  | .ok o => o

/-- Embeds `DocxS3Uploader.upload_folder` (lines 215-282).  Early returns:
empty bucket list; bucket neither listed nor creatable; invalid folder; no
`.docx` files.  Otherwise one `upload_file` task per discovered file, and
the results keyed by the original local path string. -/
def upload_folder (env : S3Env) (folder_path pre : String) :
    List (String × (Bool × Option String)) × List Action :=
  let lb := list_buckets env
  if lb.1.isEmpty then ([], lb.2)
  else
    let ready : Bool × List Action :=
      if env.bucketName ∈ lb.1 then (true, lb.2)
      else
        let c := create_bucket_if_not_exists env
        (c.1, lb.2 ++ c.2)
    if !ready.1 then ([], ready.2)
    else if !env.folderOk then ([], ready.2)
    else
      let t2 := ready.2 ++ [Action.scanDir]
      if env.scan.isEmpty then ([], t2)
      else
        let runs := env.scan.map fun rel =>
          let fp := filePathOf folder_path rel
          let r := upload_file env fp (some (objectNameFor pre rel))
          (fp, gatherEntry r.1, r.2)
        (runs.map fun e => (e.1, e.2.1),
         t2 ++ (runs.map fun e => e.2.2).flatten)

/-- The process environment, as a map from variable name to optional
value. -/
abbrev Environ : Type := String → Option String

/-- The fixed list of proxy-related variable names removed by
`clear_proxy_environment` (lines 288-292). -/
def proxy_vars : List String :=
  ["HTTP_PROXY", "http_proxy", "HTTPS_PROXY", "https_proxy",
   "NO_PROXY", "no_proxy"]

/-- Deletion of one environment variable (`del os.environ[var]`). -/
def delVar (e : Environ) (v : String) : Environ :=
  fun k => if k = v then none else e k

/-- Embeds `clear_proxy_environment` (lines 286-296): for each proxy
variable, delete it when present. -/
def clear_proxy_environment (e : Environ) : Environ :=
  proxy_vars.foldl (fun acc v => if (acc v).isSome then delVar acc v else acc) e

/-! Helper lemmas. -/

/-- One pass of the deletion loop behaves as deletion of the variable,
whether or not the variable is present. -/
theorem clearStep_apply (acc : Environ) (v k : String) :
    (if (acc v).isSome then delVar acc v else acc) k
      = if k = v then none else acc k := by
  by_cases hs : (acc v).isSome
  · rw [if_pos hs]; rfl
  · rw [if_neg hs]
    by_cases hk : k = v
    · subst hk
      rw [if_pos rfl, Option.not_isSome_iff_eq_none.mp hs]
    · rw [if_neg hk]

/-- The deletion loop over any list of variable names removes exactly those
names and preserves every other entry. -/
theorem foldl_clear_apply (l : List String) (e : Environ) (k : String) :
    (l.foldl (fun acc v => if (acc v).isSome then delVar acc v else acc) e) k
      = if k ∈ l then none else e k := by
  induction l generalizing e with
  | nil => simp
  | cons v t ih =>
    rw [List.foldl_cons, ih]
    by_cases ht : k ∈ t
    · simp [ht]
    · rw [if_neg ht, clearStep_apply]
      by_cases hv : k = v
      · simp [hv]
      · simp [hv, ht]

/-- Pointwise description of `clear_proxy_environment`. -/
theorem clear_proxy_apply (e : Environ) (k : String) :
    clear_proxy_environment e k = if k ∈ proxy_vars then none else e k :=
  foldl_clear_apply proxy_vars e k

/-- The result of `upload_file` is always a returned outcome, namely the
aggregation of its `try`-body result; never an escaped exception. -/
theorem upload_file_never_raises (env : S3Env) (fp : String) (k : Option String) :
    (upload_file env fp k).1
      = Except.ok (gatherEntry (uploadFileBody env fp (k.getD (basename fp))).1) := by
  unfold upload_file
  cases hb : uploadFileBody env fp (k.getD (basename fp)) with
  | mk r t =>
    cases r with
    | ok o => simp [hb, gatherEntry]
    | error e => cases e <;> simp [hb, gatherEntry]

/-- The path-style fallback URL is never the empty string. -/
theorem fallback_url_ne_empty (a b k : String) : a ++ "/" ++ b ++ "/" ++ k ≠ "" := by
  intro h
  have h2 := congrArg String.length h
  simp only [String.length_append] at h2
  have h3 : String.length "/" = 1 := rfl
  have h4 : String.length "" = 0 := rfl
  rw [h3, h4] at h2
  omega

/-- Joining a fixed folder path to a relative path is injective in the
relative path. -/
theorem filePathOf_injective (folder : String) :
    Function.Injective (filePathOf folder) := by
  intro a b h
  have hd := congrArg String.data h
  unfold filePathOf at hd
  rw [String.data_append, String.data_append] at hd
  exact String.ext (List.append_cancel_left hd)

/-- When the batch reaches the upload phase (non-empty bucket list, bucket
listed or successfully created, valid folder, at least one discovered
file), the returned mapping is exactly one entry per discovered file, each
keyed by the local path string and holding that file's own aggregated
outcome. -/
theorem upload_folder_fst_of_reaches (env : S3Env) (folder_path pre : String)
    (hb : (list_buckets env).1 ≠ [])
    (hr : env.bucketName ∈ (list_buckets env).1
            ∨ (create_bucket_if_not_exists env).1 = true)
    (hf : env.folderOk = true)
    (hs : env.scan ≠ []) :
    (upload_folder env folder_path pre).1
      = env.scan.map (fun rel =>
          (filePathOf folder_path rel,
           gatherEntry (upload_file env (filePathOf folder_path rel)
             (some (objectNameFor pre rel))).1)) := by
  have hbe : (list_buckets env).1.isEmpty = false := by
    rcases h : (list_buckets env).1 with _ | _
    · exact absurd h hb
    · rfl
  have hse : env.scan.isEmpty = false := by
    rcases h : env.scan with _ | _
    · exact absurd h hs
    · rfl
  by_cases hmem : env.bucketName ∈ (list_buckets env).1
  · simp [upload_folder, hbe, hse, hmem, hf, List.map_map]
  · have hcr : (create_bucket_if_not_exists env).1 = true := hr.resolve_left hmem
    simp [upload_folder, hbe, hse, hmem, hcr, hf, List.map_map]

/-- Every entry of the mapping returned by `upload_folder` is the entry of
one discovered file, holding that file's own aggregated outcome. -/
theorem upload_folder_mem_shape (env : S3Env) (folder_path pre : String)
    (x : String × (Bool × Option String))
    (hx : x ∈ (upload_folder env folder_path pre).1) :
    ∃ rel ∈ env.scan,
      x = (filePathOf folder_path rel,
           gatherEntry (upload_file env (filePathOf folder_path rel)
             (some (objectNameFor pre rel))).1) := by
  by_cases h1 : (list_buckets env).1.isEmpty
  · simp [upload_folder, h1] at hx
  · by_cases h4 : env.scan.isEmpty
    · by_cases h2 : env.bucketName ∈ (list_buckets env).1
      · by_cases h3 : env.folderOk <;>
          simp [upload_folder, h1, h2, h3, h4] at hx
      · by_cases h2b : (create_bucket_if_not_exists env).1 <;>
          by_cases h3 : env.folderOk <;>
            simp [upload_folder, h1, h2, h2b, h3, h4] at hx
    · by_cases h2 : env.bucketName ∈ (list_buckets env).1
      · by_cases h3 : env.folderOk
        · simp [upload_folder, h1, h2, h3, h4, List.map_map] at hx
          obtain ⟨rel, hrel, rfl⟩ := hx
          exact ⟨rel, hrel, rfl⟩
        · simp [upload_folder, h1, h2, h3, h4] at hx
      · by_cases h2b : (create_bucket_if_not_exists env).1
        · by_cases h3 : env.folderOk
          · simp [upload_folder, h1, h2, h2b, h3, h4, List.map_map] at hx
            obtain ⟨rel, hrel, rfl⟩ := hx
            exact ⟨rel, hrel, rfl⟩
          · simp [upload_folder, h1, h2, h2b, h3, h4] at hx
        · simp [upload_folder, h1, h2, h2b, h4] at hx

/-! Claim theorems. -/

/-- C9: `clear_proxy_environment` removes exactly the six proxy entries,
leaves every other environment entry unchanged, never fails when keys are
absent (it is a total function of the environment), and is idempotent. -/
theorem clear_proxy_environment_exact (e : Environ) (k : String) :
    (k ∈ proxy_vars → clear_proxy_environment e k = none)
      ∧ (k ∉ proxy_vars → clear_proxy_environment e k = e k)
      ∧ clear_proxy_environment (clear_proxy_environment e)
          = clear_proxy_environment e := by
  refine ⟨fun h => ?_, fun h => ?_, ?_⟩
  · rw [clear_proxy_apply, if_pos h]
  · rw [clear_proxy_apply, if_neg h]
  · funext j
    rw [clear_proxy_apply, clear_proxy_apply]
    by_cases hj : j ∈ proxy_vars <;> simp [hj]

/-- Witness for C9: on an environment where every variable is set,
`HTTP_PROXY` is removed and `PATH` is untouched. -/
theorem clear_proxy_environment_exact_witness :
    clear_proxy_environment (fun _ => some "x") "HTTP_PROXY" = none
      ∧ clear_proxy_environment (fun _ => some "x") "PATH" = some "x" :=
  ⟨(clear_proxy_environment_exact (fun _ => some "x") "HTTP_PROXY").1 (by decide),
   (clear_proxy_environment_exact (fun _ => some "x") "PATH").2.1 (by decide)⟩

/-- Environment in which `head_bucket` faults with a 403 (forbidden)
client error while `create_bucket` would succeed. -/
def envForbidden : S3Env := {
  bucketName := "docs", endpointUrl := "https://s3.example",
  listBucketsRaw := .ok ["other"],
  headBucket := .error (Exn.clientError "403"),
  createBucket := .ok (),
  presign := fun _ => .ok "u",
  fileRead := fun _ => .ok (),
  putObject := fun _ _ => .ok (),
  folderOk := true, scan := [] }

/-- C2 counterexample: when `head_bucket` faults with code "403",
`create_bucket_if_not_exists` nevertheless calls `create_bucket` (the
trace records it once) and returns that call's result (here `true`), not
`false`; the claimed "return false without calling createBucket" fails. -/
theorem create_bucket_403_counterexample :
    (create_bucket_if_not_exists envForbidden).1 = true
      ∧ (create_bucket_if_not_exists envForbidden).2.count Action.createBucket
          = 1 := by
  decide

/-- C2 amended: `create_bucket_if_not_exists` attempts creation in every
fault case: whenever `head_bucket` faults (code "404", "403", or any
other fault), it calls `create_bucket` exactly once and returns whether
that call succeeded; only when `head_bucket` succeeds does it return true
without calling `create_bucket`. -/
theorem create_bucket_fault_behavior (env : S3Env) :
    (∀ e, env.headBucket = Except.error e →
        (create_bucket_if_not_exists env).2.count Action.createBucket = 1
          ∧ (create_bucket_if_not_exists env).1 = env.createBucket.isOk)
      ∧ (env.headBucket = Except.ok () →
          (create_bucket_if_not_exists env).1 = true
            ∧ (create_bucket_if_not_exists env).2.count Action.createBucket
                = 0) := by
  constructor
  · intro e he
    have hc : check_bucket_exists env = (false, [Action.headBucket]) := by
      cases e <;> simp [check_bucket_exists, he]
    cases hcb : env.createBucket with
    | ok u =>
        cases u
        exact ⟨by simp [create_bucket_if_not_exists, hc, hcb],
               by simp [create_bucket_if_not_exists, hc, hcb, Except.isOk,
                        Except.toBool]⟩
    | error f =>
        exact ⟨by simp [create_bucket_if_not_exists, hc, hcb],
               by simp [create_bucket_if_not_exists, hc, hcb, Except.isOk,
                        Except.toBool]⟩
  · intro ho
    have hc : check_bucket_exists env = (true, [Action.headBucket]) := by
      simp [check_bucket_exists, ho]
    simp [create_bucket_if_not_exists, hc]

/-- Environment in which `head_bucket` faults with a 404 (not found)
client error and `create_bucket` succeeds. -/
def envNotFound : S3Env := {
  bucketName := "docs", endpointUrl := "https://s3.example",
  listBucketsRaw := .ok ["other"],
  headBucket := .error (Exn.clientError "404"),
  createBucket := .ok (),
  presign := fun _ => .ok "u",
  fileRead := fun _ => .ok (),
  putObject := fun _ _ => .ok (),
  folderOk := true, scan := [] }

/-- Witness for the amended C2: in the 404 case, one `create_bucket`
call, and the returned flag is that call's success. -/
theorem create_bucket_fault_behavior_witness :
    (create_bucket_if_not_exists envNotFound).2.count Action.createBucket = 1
      ∧ (create_bucket_if_not_exists envNotFound).1
          = envNotFound.createBucket.isOk :=
  (create_bucket_fault_behavior envNotFound).1 (Exn.clientError "404") rfl

/-- Environment in which every file read raises an IOError (unreadable
files) while the store operations succeed. -/
def envUnreadable : S3Env := {
  bucketName := "docs", endpointUrl := "https://s3.example",
  listBucketsRaw := .ok ["docs"],
  headBucket := .ok (), createBucket := .ok (),
  presign := fun _ => .ok "u",
  fileRead := fun _ => .error Exn.ioError,
  putObject := fun _ _ => .ok (),
  folderOk := true, scan := ["f.docx"] }

/-- C3 counterexample: with an unreadable local file (the read raises an
IOError), `upload_file` returns the outcome `(false, none)` — an
`Except.ok` value, not an `Except.error` — so the IOError is caught inside
`upload_file` and never propagates to the orchestrator. -/
theorem upload_file_ioError_counterexample :
    (upload_file envUnreadable "t/f.docx" (some "f.docx")).1
      = Except.ok (false, none) := rfl

/-- C3 amended: when the local file is unreadable, the IOError is caught
inside `upload_file` itself by its catch-all handler and converted to the
failure outcome `(false, none)`; it does not propagate to the caller, so
the orchestrator's exception-conversion branch is not what handles it. -/
theorem upload_file_ioError_caught_inside (env : S3Env) (fp : String)
    (k : Option String) (h : env.fileRead fp = Except.error Exn.ioError) :
    (upload_file env fp k).1 = Except.ok (false, none) := by
  rw [upload_file_never_raises]
  simp [uploadFileBody, h, gatherEntry]

/-- Witness for the amended C3. -/
theorem upload_file_ioError_caught_inside_witness :
    (upload_file envUnreadable "t/g.docx" (some "g.docx")).1
      = Except.ok (false, none) :=
  upload_file_ioError_caught_inside envUnreadable "t/g.docx" (some "g.docx") rfl

/-- C5: `get_file_url` is total (it returns a string for every object
key); whenever presigned-URL generation faults, for any reason, the
returned value is exactly `{endpoint}/{bucket}/{objectKey}`, and when it
succeeds the presigned URL itself is returned. -/
theorem get_file_url_total_with_fallback (env : S3Env) (key : String) :
    (∀ e, env.presign key = Except.error e →
        (get_file_url env key).1
          = env.endpointUrl ++ "/" ++ env.bucketName ++ "/" ++ key)
      ∧ (∀ u, env.presign key = Except.ok u → (get_file_url env key).1 = u) := by
  constructor <;> intro x hx <;> simp [get_file_url, hx]

/-- Environment in which presigned-URL generation always faults. -/
def envNoSign : S3Env := {
  bucketName := "docs", endpointUrl := "https://s3.example",
  listBucketsRaw := .ok ["docs"],
  headBucket := .ok (), createBucket := .ok (),
  presign := fun _ => .error Exn.otherError,
  fileRead := fun _ => .ok (),
  putObject := fun _ _ => .ok (),
  folderOk := true, scan := ["a.docx"] }

/-- Witness for C5: the fallback URL for a concrete key. -/
theorem get_file_url_total_with_fallback_witness :
    (get_file_url envNoSign "k/a.docx").1 = "https://s3.example/docs/k/a.docx" :=
  (get_file_url_total_with_fallback envNoSign "k/a.docx").1 Exn.otherError rfl

/-- C6: the object key computed by `upload_folder` is the concatenation of
the prefix and the relative path with every backslash character replaced
by a forward slash; in particular `sub\dir\file.docx` (and
`sub/dir/file.docx`) under prefix `out/` both yield
`out/sub/dir/file.docx`. -/
theorem object_key_normalization (pre rel : String) :
    objectNameFor pre rel = replaceBackslash (pre ++ rel)
      ∧ (objectNameFor pre rel).data
          = (pre ++ rel).data.map (fun c => if c = '\\' then '/' else c)
      ∧ objectNameFor "out/" "sub\\dir\\file.docx" = "out/sub/dir/file.docx"
      ∧ objectNameFor "out/" "sub/dir/file.docx" = "out/sub/dir/file.docx" := by
  have h1 : objectNameFor pre rel = replaceBackslash (pre ++ rel) := by
    by_cases h : pre = ""
    · subst h
      simp [objectNameFor, String.empty_append]
    · simp [objectNameFor, h]
  refine ⟨h1, ?_, by decide, by decide⟩
  rw [h1]
  rfl

/-- Environment whose discovered files are a file whose own name contains
a literal backslash and a file nested one directory deep; everything
else succeeds except the uploads. -/
def envSlashName : S3Env := {
  bucketName := "docs", endpointUrl := "https://s3.example",
  listBucketsRaw := .ok ["docs"],
  headBucket := .ok (), createBucket := .ok (),
  presign := fun _ => .error Exn.otherError,
  fileRead := fun _ => .error Exn.ioError,
  putObject := fun _ _ => .ok (),
  folderOk := true,
  scan := ["sub\\dir.docx", "sub/dir.docx"] }

/-- C10: the object-key derivation is not injective: the two distinct
relative paths `sub\dir.docx` (a single file name containing a backslash)
and `sub/dir.docx` (a nested path) receive the same object key, yet the
returned mapping keeps two distinct entries because it is keyed by the
original local path strings. -/
theorem object_key_not_injective :
    ("sub\\dir.docx" : String) ≠ "sub/dir.docx"
      ∧ objectNameFor "" "sub\\dir.docx" = objectNameFor "" "sub/dir.docx"
      ∧ (file_object_names envSlashName "t" "").map Prod.snd
          = ["sub/dir.docx", "sub/dir.docx"]
      ∧ (upload_folder envSlashName "t" "").1.map Prod.fst
          = ["t/sub\\dir.docx", "t/sub/dir.docx"]
      ∧ ((upload_folder envSlashName "t" "").1.map Prod.fst).Nodup := by
  refine ⟨by decide, by decide, by decide, by decide, by decide⟩

/-- C1: in every batch run that reaches the upload phase, the returned
mapping has exactly one entry per discovered `.docx` file, keyed by the
original local file path string, with no extra keys — for every
environment, hence regardless of which uploads fail or raise. -/
theorem upload_folder_keys_exact (env : S3Env) (folder_path pre : String)
    (hb : (list_buckets env).1 ≠ [])
    (hr : env.bucketName ∈ (list_buckets env).1
            ∨ (create_bucket_if_not_exists env).1 = true)
    (hf : env.folderOk = true)
    (hs : env.scan ≠ [])
    (hnd : env.scan.Nodup) :
    (upload_folder env folder_path pre).1.map Prod.fst
        = env.scan.map (filePathOf folder_path)
      ∧ ((upload_folder env folder_path pre).1.map Prod.fst).Nodup := by
  have h := upload_folder_fst_of_reaches env folder_path pre hb hr hf hs
  have hkeys : (upload_folder env folder_path pre).1.map Prod.fst
      = env.scan.map (filePathOf folder_path) := by
    rw [h, List.map_map]
    rfl
  refine ⟨hkeys, ?_⟩
  rw [hkeys]
  exact hnd.map (filePathOf_injective folder_path)

/-- Environment in which every upload fails (unreadable files), with a
reachable store and an existing bucket. -/
def envAllFail : S3Env := {
  bucketName := "docs", endpointUrl := "https://s3.example",
  listBucketsRaw := .ok ["docs"],
  headBucket := .ok (), createBucket := .ok (),
  presign := fun _ => .error Exn.otherError,
  fileRead := fun _ => .error Exn.ioError,
  putObject := fun _ _ => .ok (),
  folderOk := true, scan := ["a.docx", "s/b.docx"] }

/-- Witness for C1: two discovered files, both uploads fail, and the
mapping still has exactly those two keys. -/
theorem upload_folder_keys_exact_witness :
    (upload_folder envAllFail "t" "").1.map Prod.fst
        = ["t/a.docx", "t/s/b.docx"]
      ∧ ((upload_folder envAllFail "t" "").1.map Prod.fst).Nodup := by
  have h := upload_folder_keys_exact envAllFail "t" "" (by decide)
    (Or.inl (by decide)) rfl (by decide) (by decide)
  exact ⟨h.1.trans (by decide), h.2⟩

/-- C4: no exception escapes: `upload_file` always returns an outcome
(never lets an exception propagate to the gather), a fault in the file
read or in the put converts to `(false, none)`, and every entry of the
`upload_folder` mapping is one file's own aggregated outcome — so one
task's fault cannot abort a sibling entry or the batch. -/
theorem upload_no_exception_escape (env : S3Env) (folder_path pre : String) :
    (∀ fp k, ∃ o, (upload_file env fp k).1 = Except.ok o)
      ∧ (∀ fp key e, env.fileRead fp = Except.error e →
            (upload_file env fp (some key)).1 = Except.ok (false, none))
      ∧ (∀ fp key e, env.putObject key docxContentType = Except.error e →
            (upload_file env fp (some key)).1 = Except.ok (false, none))
      ∧ (∀ x ∈ (upload_folder env folder_path pre).1,
            ∃ rel ∈ env.scan,
              x = (filePathOf folder_path rel,
                   gatherEntry (upload_file env (filePathOf folder_path rel)
                     (some (objectNameFor pre rel))).1)) := by
  refine ⟨fun fp k => ⟨_, upload_file_never_raises env fp k⟩, ?_, ?_, ?_⟩
  · intro fp key e h
    rw [upload_file_never_raises]
    simp [uploadFileBody, h, gatherEntry]
  · intro fp key e h
    rw [upload_file_never_raises]
    cases hr : env.fileRead fp with
    | error e2 => simp [uploadFileBody, hr, gatherEntry]
    | ok u =>
        cases u
        simp [uploadFileBody, hr, h, gatherEntry]
  · exact fun x hx => upload_folder_mem_shape env folder_path pre x hx

/-- Environment in which file reads raise an unexpected error and puts
report a client error. -/
def envFaulty : S3Env := {
  bucketName := "docs", endpointUrl := "https://s3.example",
  listBucketsRaw := .ok ["docs"],
  headBucket := .ok (), createBucket := .ok (),
  presign := fun _ => .ok "u",
  fileRead := fun _ => .error Exn.otherError,
  putObject := fun _ _ => .error (Exn.clientError "500"),
  folderOk := true, scan := ["a.docx"] }

/-- Witness for C4: an unexpected read fault is converted to
`(false, none)` inside the task. -/
theorem upload_no_exception_escape_witness :
    (upload_file envFaulty "t/a.docx" (some "a.docx")).1
      = Except.ok (false, none) :=
  (upload_no_exception_escape envFaulty "t" "").2.1 "t/a.docx" "a.docx"
    Exn.otherError rfl

/-- C7: under the assumption that the store's presigned URLs are non-empty
strings, every outcome of `upload_file` — and every entry of the mapping
returned by `upload_folder` — is either `success = true` with a non-empty
URL or `success = false` with no URL; no outcome pairs `false` with a
present URL. -/
theorem outcome_two_shapes (env : S3Env) (folder_path pre : String)
    (hp : ∀ k u, env.presign k = Except.ok u → u ≠ "") :
    (∀ fp k o, (upload_file env fp k).1 = Except.ok o →
        (o.1 = true ∧ o.2.isSome = true ∧ o.2.getD "" ≠ "")
          ∨ (o.1 = false ∧ o.2 = none))
      ∧ (∀ p o, (p, o) ∈ (upload_folder env folder_path pre).1 →
          (o.1 = true ∧ o.2.isSome = true ∧ o.2.getD "" ≠ "")
            ∨ (o.1 = false ∧ o.2 = none)) := by
  have hurl : ∀ key, (get_file_url env key).1 ≠ "" := by
    intro key
    cases hpk : env.presign key with
    | ok u =>
        have hu := hp key u hpk
        simpa [get_file_url, hpk] using hu
    | error e =>
        simpa [get_file_url, hpk] using
          fallback_url_ne_empty env.endpointUrl env.bucketName key
  have hshape : ∀ fp key,
      ((gatherEntry (uploadFileBody env fp key).1).1 = true
          ∧ ((gatherEntry (uploadFileBody env fp key).1).2).isSome = true
          ∧ ((gatherEntry (uploadFileBody env fp key).1).2).getD "" ≠ "")
        ∨ ((gatherEntry (uploadFileBody env fp key).1).1 = false
          ∧ (gatherEntry (uploadFileBody env fp key).1).2 = none) := by
    intro fp key
    cases hr : env.fileRead fp with
    | error e => right; simp [uploadFileBody, hr, gatherEntry]
    | ok u =>
        cases u
        cases hpo : env.putObject key docxContentType with
        | error e => right; simp [uploadFileBody, hr, hpo, gatherEntry]
        | ok v =>
            cases v
            left
            refine ⟨?_, ?_, ?_⟩ <;>
              simp [uploadFileBody, hr, hpo, gatherEntry, hurl key]
  constructor
  · intro fp k o ho
    have h2 := upload_file_never_raises env fp k
    rw [ho] at h2
    have h3 : o = gatherEntry (uploadFileBody env fp (k.getD (basename fp))).1 :=
      Except.ok.inj h2
    rw [h3]
    exact hshape fp (k.getD (basename fp))
  · intro p o hmem
    obtain ⟨rel, hrel, hx⟩ :=
      upload_folder_mem_shape env folder_path pre (p, o) hmem
    have ho2 := congrArg Prod.snd hx
    rw [upload_file_never_raises] at ho2
    simp only [gatherEntry] at ho2
    rw [ho2]
    simpa using hshape (filePathOf folder_path rel)
      ((some (objectNameFor pre rel)).getD
        (basename (filePathOf folder_path rel)))

/-- Environment in which everything succeeds and the presigned URL is a
fixed non-empty string. -/
def envHappy : S3Env := {
  bucketName := "docs", endpointUrl := "https://s3.example",
  listBucketsRaw := .ok ["docs"],
  headBucket := .ok (), createBucket := .ok (),
  presign := fun _ => .ok "https://signed.example/u",
  fileRead := fun _ => .ok (),
  putObject := fun _ _ => .ok (),
  folderOk := true, scan := ["a.docx"] }

/-- Witness for C7: the successful outcome `(true, some url)` lands in the
first shape. -/
theorem outcome_two_shapes_witness :
    (((true, some "https://signed.example/u") : Bool × Option String).1 = true
        ∧ (((true, some "https://signed.example/u") :
              Bool × Option String).2).isSome = true
        ∧ (((true, some "https://signed.example/u") :
              Bool × Option String).2).getD "" ≠ "")
      ∨ (((true, some "https://signed.example/u") :
            Bool × Option String).1 = false
        ∧ (((true, some "https://signed.example/u") :
              Bool × Option String).2) = none) :=
  (outcome_two_shapes envHappy "t" ""
      (fun k u h => by injection h with h2; rw [← h2]; decide)).1
    "t/a.docx" (some "a.docx") (true, some "https://signed.example/u") rfl

/-- C8: if `list_buckets` yields the empty list, `upload_folder` returns
the empty mapping at once; its action trace is exactly the one
`listBuckets` call — no bucket-readiness check, no directory scan, no file
read. -/
theorem upload_folder_empty_buckets_early_return (env : S3Env)
    (folder_path pre : String) (h : (list_buckets env).1 = []) :
    upload_folder env folder_path pre = ([], [Action.listBuckets])
      ∧ Action.headBucket ∉ (upload_folder env folder_path pre).2
      ∧ Action.createBucket ∉ (upload_folder env folder_path pre).2
      ∧ Action.scanDir ∉ (upload_folder env folder_path pre).2
      ∧ ∀ p, Action.readFile p ∉ (upload_folder env folder_path pre).2 := by
  have h2 : (list_buckets env).2 = [Action.listBuckets] := by
    unfold list_buckets
    cases env.listBucketsRaw <;> rfl
  have hmain : upload_folder env folder_path pre = ([], [Action.listBuckets]) := by
    simp [upload_folder, h, h2]
  refine ⟨hmain, ?_, ?_, ?_, fun p => ?_⟩ <;> rw [hmain] <;> simp

/-- Environment in which the `list_buckets` call itself faults, so the
caught exception yields the empty bucket list. -/
def envDown : S3Env := {
  bucketName := "docs", endpointUrl := "https://s3.example",
  listBucketsRaw := .error Exn.otherError,
  headBucket := .ok (), createBucket := .ok (),
  presign := fun _ => .ok "u",
  fileRead := fun _ => .ok (),
  putObject := fun _ _ => .ok (),
  folderOk := true, scan := ["a.docx"] }

/-- Witness for C8: an unreachable store gives the empty mapping and a
trace holding only the `listBuckets` call. -/
theorem upload_folder_empty_buckets_early_return_witness :
    upload_folder envDown "t" "" = ([], [Action.listBuckets]) :=
  (upload_folder_empty_buckets_early_return envDown "t" "" rfl).1

end TemplateUpload
